import Mathlib

/-!
Verification development for the player European-statistics dashboard
(source: Player_European_Stats.py).

The database table streamlit.Fbref_Appearances is embedded as a Lean list of
appearance records.  The three parameterized queries and the pandas
aggregation pipeline of create_streamlit_app are embedded as pure Lean
functions over that list:

* Python strings are Lean Strings; character-level operations (slicing
  s[:4], int(...) parsing, lexicographic comparison used by sorted(),
  groupby key ordering and min()) are modelled on String.data, the
  underlying list of characters, so that everything evaluates inside the
  kernel.  Python compares strings by code point, which is exactly the
  lexicographic order on Char.toNat.
* pandas Series.mode() drops nulls, computes the set of most frequent
  values and returns them sorted ascending; .iat[0] then reads the first.
* DataFrame.replace(-1, pd.NA) on the numeric columns is the function
  sentinel below; sums skip nulls (sum with skipna), and an empty or
  all-null group sums to 0, as in pandas.
-/

/-! ## Character-level string operations -/

/-- Code-point lexicographic comparison of character lists: the order Python
uses on strings. -/
def charListLe : List Char → List Char → Bool
  | [], _ => true
  | _ :: _, [] => false
  | a :: as, b :: bs =>
    if a.toNat = b.toNat then charListLe as bs
    else decide (a.toNat < b.toNat)

/-- String comparison by code points (Python string order). -/
def strLe (s t : String) : Bool :=
  charListLe s.data t.data

/-- Binary minimum in the Python string order (min keeps the left argument
on ties, which for equal strings is the same string). -/
def strMin (s t : String) : String :=
  if strLe s t then s else t

/-- Minimum of a list of strings, as pandas groupby min computes it; the
empty case never arises on the paths the program takes. -/
def strMinList : List String → String
  | [] => ""
  | s :: ss => ss.foldl strMin s

/-- Value of a list of decimal digit characters, the way int() reads a
well-formed digit string. -/
def digitsVal (cs : List Char) : Nat :=
  cs.foldl (fun n c => n * 10 + (c.toNat - 48)) 0

/-- Numeric start year of a season label: season_name.str[:4].astype(int).
astype(int) raises on malformed labels; the claims under verification all
concern well-formed 4-digit labels, on which this parser agrees with int().
-/
def seasonStart (s : String) : Nat :=
  digitsVal (s.data.take 4)

/-- Rebuilt season label: str(y) + "/" + str(y + 1). -/
def seasonLabel (y : Nat) : String :=
  toString y ++ "/" ++ toString (y + 1)

/-- Python sorted() on strings: stable sort in code-point order. -/
def sortedStrings (l : List String) : List String :=
  List.insertionSort (fun a b => strLe a b = true) l

/-! ## Data model

One row of streamlit.Fbref_Appearances: a single appearance of a player in
one match.  Numeric columns use the sentinel -1 for "not tracked"; the
nationality column is nullable at the SQL level.  The game_date column is
only used by load_latest_game_date, about which no claim is made, and is
omitted. -/

structure Row where
  player_name : String
  competition_name : String
  season_name : String
  team_name : String
  nationality : Option String
  player_position : String
  shirt_number : Int
  minutes_played : Int
  goals : Int
  assists : Int
  yellow_cards : Int
  red_cards : Int
  number_of_seasons : Int
deriving DecidableEq, Repr

/-- df.replace(-1, pd.NA) pointwise on a numeric cell: the sentinel becomes
null, every other value survives. -/
def sentinel (v : Int) : Option Int :=
  if v = -1 then none else some v

/-! ## Query layer

Each query function takes the table contents as an explicit argument; the
connection, caching decorator and SQL text are represented by pure list
operations with the same semantics.  The result distinguishes the
early-return path (no query is issued against the database) from an issued
query, and an issued query's runtime failure from its value. -/

inductive QueryResult (α : Type) where
  /-- Early return before connecting: no database query was issued. -/
  | empty : QueryResult α
  /-- A query was issued and produced this value. -/
  | ok : α → QueryResult α
  /-- A query was issued but the surrounding Python raised. -/
  | err : String → QueryResult α
deriving DecidableEq, Repr

/-- Maximum of a list of Ints, SQL MAX over a nonempty column; the empty
case is the SQL NULL aggregate, handled by the callers. -/
def intMaxList : List Int → Option Int
  | [] => none
  | v :: vs => some (vs.foldl max v)

/-- load_number_of_seasons: returns an empty result when no competition is
selected; otherwise MAX(number_of_seasons) over the rows of the selected
competitions, converted with int().  When no row matches, the MAX aggregate
is NULL and int(NULL) raises (modelled by err). -/
def load_number_of_seasons (table : List Row) (selected_comps : List String) :
    QueryResult Int :=
  if selected_comps = [] then .empty
  else
    match intMaxList ((table.filter
        (fun r => decide (r.competition_name ∈ selected_comps))).map
        (fun r => r.number_of_seasons)) with
    | some m => .ok m
    | none => .err "int() applied to a NULL MAX aggregate"

/-- load_players: returns an empty result when no competition is selected;
otherwise the DISTINCT player names of rows meeting the minimum-seasons
threshold in the selected competitions, sorted with Python sorted(). -/
def load_players (table : List Row) (minimum_seasons : Int)
    (selected_comps : List String) : QueryResult (List String) :=
  if selected_comps = [] then .empty
  else
    .ok (sortedStrings (((table.filter
      (fun r => decide (minimum_seasons ≤ r.number_of_seasons ∧
        r.competition_name ∈ selected_comps))).map
      (fun r => r.player_name)).dedup))

/-- load_player_data: returns an empty result when no player or no
competition is selected; otherwise all rows of that player meeting the
minimum-seasons threshold in the selected competitions. -/
def load_player_data (table : List Row) (minimum_seasons : Int)
    (player : String) (selected_comps : List String) : QueryResult (List Row) :=
  if player = "" ∨ selected_comps = [] then .empty
  else
    .ok (table.filter
      (fun r => decide (minimum_seasons ≤ r.number_of_seasons ∧
        r.player_name = player ∧ r.competition_name ∈ selected_comps)))

/-! ## List minimum/maximum helpers -/

/-- Minimum of a list of naturals (series .min()); defined as 0 on the
empty list, which never occurs on the program's paths. -/
def natMinList : List Nat → Nat
  | [] => 0
  | v :: vs => vs.foldl min v

/-- Maximum of a list of naturals (series .max()); 0 on the empty list. -/
def natMaxList : List Nat → Nat
  | [] => 0
  | v :: vs => vs.foldl max v

/-! ## Mode of a column (pandas Series.mode, then .iat[0])

Series.mode() drops nulls (the callers below pass the column with nulls
already removed), keeps the values attaining the maximal frequency, and
returns them sorted ascending.  .iat[0] is head?. -/

/-- Largest frequency attained by any value of the list. -/
def maxCount {α : Type} [DecidableEq α] (l : List α) : Nat :=
  natMaxList (l.dedup.map (fun a => l.count a))

/-- pandas Series.mode over a null-free column, sorted by the given
ascending order. -/
def modesBy {α : Type} [DecidableEq α] (le : α → α → Bool) (l : List α) :
    List α :=
  List.insertionSort (fun a b => le a b = true)
    (l.dedup.filter (fun a => decide (l.count a = maxCount l)))

/-! ## Aggregation stage (create_streamlit_app, lines 265-360)

final_df is the player dataframe after the optional season filter.  The
replace(-1, pd.NA) step that precedes the statistics is applied pointwise
by sentinel inside each reducer; string columns are untouched by
replace(-1, ...), exactly as in pandas. -/

def intLe (a b : Int) : Bool :=
  decide (a ≤ b)

/-- total_appearances = len(final_df). -/
def total_appearances (final_df : List Row) : Nat :=
  final_df.length

/-- total_goals = final_df["goals"].sum(skipna=True) after replace(-1, NA). -/
def total_goals (final_df : List Row) : Int :=
  (final_df.filterMap (fun r => sentinel r.goals)).sum

/-- total_assists = final_df["assists"].sum(skipna=True). -/
def total_assists (final_df : List Row) : Int :=
  (final_df.filterMap (fun r => sentinel r.assists)).sum

/-- total_yellows = final_df["yellow_cards"].sum(skipna=True). -/
def total_yellows (final_df : List Row) : Int :=
  (final_df.filterMap (fun r => sentinel r.yellow_cards)).sum

/-- total_reds = final_df["red_cards"].sum(skipna=True). -/
def total_reds (final_df : List Row) : Int :=
  (final_df.filterMap (fun r => sentinel r.red_cards)).sum

/-- minutes_played = final_df["minutes_played"].sum(skipna=True). -/
def minutes_played (final_df : List Row) : Int :=
  (final_df.filterMap (fun r => sentinel r.minutes_played)).sum

/-- The non-null nationality values: what the nationality mode runs over. -/
def nationalityPool (final_df : List Row) : List String :=
  final_df.filterMap (fun r => r.nationality)

/-- The non-null number_of_seasons values after replace(-1, NA): what the
number_of_seasons mode runs over. -/
def numberOfSeasonsPool (final_df : List Row) : List Int :=
  final_df.filterMap (fun r => sentinel r.number_of_seasons)

/-- The position values different from "N/A": what the position mode runs
over. -/
def positionsPool (final_df : List Row) : List String :=
  (final_df.map (fun r => r.player_position)).filter (fun p => decide (p ≠ "N/A"))

/-- The non-null shirt numbers after replace(-1, NA): what the shirt-number
mode runs over. -/
def shirtPool (final_df : List Row) : List Int :=
  final_df.filterMap (fun r => sentinel r.shirt_number)

/-- nationality = final_df["nationality"].mode().iat[0]; .iat[0] on an empty
mode series raises, modelled by none. -/
def nationality_stat (final_df : List Row) : Option String :=
  (modesBy strLe (nationalityPool final_df)).head?

/-- number_of_seasons = final_df["number_of_seasons"].mode().iat[0], after
replace(-1, NA); .iat[0] on an empty mode series raises, modelled by none. -/
def number_of_seasons_stat (final_df : List Row) : Option Int :=
  (modesBy intLe (numberOfSeasonsPool final_df)).head?

/-- main_position: mode of the positions different from "N/A", with the
"Unknown" fallback when that selection is empty. -/
def main_position (final_df : List Row) : String :=
  ((modesBy strLe (positionsPool final_df)).head?).getD "Unknown"

/-- Displayed shirt-number statistic: either a number or the "Unknown"
fallback. -/
inductive ShirtStat where
  | num : Int → ShirtStat
  | unknown : ShirtStat
deriving DecidableEq, Repr

/-- shirt_number: mode of the non-null shirt numbers (nulls are the
replaced -1 sentinels), with the "Unknown" fallback when none remain. -/
def shirt_number_stat (final_df : List Row) : ShirtStat :=
  match (modesBy intLe (shirtPool final_df)).head? with
  | some n => .num n
  | none => .unknown

/-! ### Team order (lines 285-288) -/

/-- Distinct team names in groupby order (groupby sorts its keys). -/
def teamNames (final_df : List Row) : List String :=
  sortedStrings ((final_df.map (fun r => r.team_name)).dedup)

/-- Earliest season_name (string minimum) among the player's rows for one
team: groupby("team_name")["season_name"].min(). -/
def minSeasonFor (final_df : List Row) (t : String) : String :=
  strMinList ((final_df.filter (fun r => decide (r.team_name = t))).map
    (fun r => r.season_name))

/-- The team_order dataframe: one (team_name, season_start) pair per team,
in groupby key order, before the sort by season_start. -/
def teamStarts (final_df : List Row) : List (String × Nat) :=
  (teamNames final_df).map (fun t => (t, seasonStart (minSeasonFor final_df t)))

/-- team_order.sort_values("season_start"). -/
def team_order (final_df : List Row) : List (String × Nat) :=
  List.insertionSort (fun a b => a.2 ≤ b.2) (teamStarts final_df)

/-- teams = " – ".join(team_order["team_name"].tolist()). -/
def teams (final_df : List Row) : String :=
  String.intercalate " – " ((team_order final_df).map (fun p => p.1))

/-! ### Per-season aggregation and densification (lines 331-360) -/

structure SeasonRow where
  Season : String
  Appearances : Nat
  Goals : Int
deriving DecidableEq, Repr

/-- Distinct season names in groupby order; the subsequent
sort_values("season_name") is a no-op on it. -/
def seasonNames (final_df : List Row) : List String :=
  sortedStrings ((final_df.map (fun r => r.season_name)).dedup)

/-- The season_start column of the grouped frame. -/
def groupStarts (final_df : List Row) : List Nat :=
  (seasonNames final_df).map seasonStart

/-- season_stats["season_start"].min(). -/
def loYear (final_df : List Row) : Nat :=
  natMinList (groupStarts final_df)

/-- season_stats["season_start"].max(). -/
def hiYear (final_df : List Row) : Nat :=
  natMaxList (groupStarts final_df)

/-- Appearances of one season group: count of player_name over the group,
which is the group size (player_name is never null). -/
def seasonAppearances (final_df : List Row) (n : String) : Nat :=
  (final_df.filter (fun r => decide (r.season_name = n))).length

/-- Goal sum of one season group; groupby sum skips nulls and an all-null
group sums to 0. -/
def seasonGoals (final_df : List Row) (n : String) : Int :=
  ((final_df.filter (fun r => decide (r.season_name = n))).filterMap
    (fun r => sentinel r.goals)).sum

/-- One row of the densified table for start year y: the left-merge with
all_seasons followed by the label rebuild and fillna(0).  The label is
rebuilt from y for matched and unmatched years alike (line 353). -/
def densRow (final_df : List Row) (y : Nat) : SeasonRow :=
  match (seasonNames final_df).find? (fun n => decide (seasonStart n = y)) with
  | some n => ⟨seasonLabel y, seasonAppearances final_df n, seasonGoals final_df n⟩
  | none => ⟨seasonLabel y, 0, 0⟩

/-- The final season_stats table: one row per start year from the earliest
to the latest season present.  On an empty frame the source raises inside
range(); the app guards this path, so the empty case is modelled by []. -/
def season_stats (final_df : List Row) : List SeasonRow :=
  if groupStarts final_df = [] then []
  else
    (List.range' (loYear final_df) (hiYear final_df + 1 - loYear final_df)).map
      (densRow final_df)

/-! ## Full pipeline and query cache -/

/-- Everything the aggregation stage hands to the presentation stage. -/
structure AggOut where
  total_appearances : Nat
  total_goals : Int
  total_assists : Int
  nationality : Option String
  total_yellows : Int
  total_reds : Int
  minutes_played : Int
  number_of_seasons : Option Int
  main_position : String
  shirt_number : ShirtStat
  teams : String
  season_table : List SeasonRow
deriving DecidableEq, Repr

/-- All aggregated outputs of create_streamlit_app for one final_df. -/
def aggregate (final_df : List Row) : AggOut :=
  ⟨total_appearances final_df, total_goals final_df, total_assists final_df,
   nationality_stat final_df, total_yellows final_df, total_reds final_df,
   minutes_played final_df, number_of_seasons_stat final_df,
   main_position final_df, shirt_number_stat final_df, teams final_df,
   season_stats final_df⟩

/-- The aggregation pipeline as a function of the filter selections and the
table: load the player rows, stop on the empty states, apply the optional
season filter, aggregate. -/
def pipeline (table : List Row) (selected_comps : List String)
    (minimum_seasons : Int) (player : String) (seasons : List String) :
    Option AggOut :=
  match load_player_data table minimum_seasons player selected_comps with
  | .empty => none
  | .err _ => none
  | .ok player_df =>
    if player_df = [] then none
    else
      some (aggregate (if seasons = [] then player_df
        else player_df.filter (fun r => decide (r.season_name ∈ seasons))))

/-- One entry of the st.cache_data store: key is the argument tuple, the
time-to-live is 600. -/
structure CacheEntry where
  key : List String × Int × String × List String
  value : Option AggOut
  expiry : Nat

/-- Cache lookup at the current time: a hit needs an unexpired entry with
the same argument tuple. -/
def cacheLookup (cache : List CacheEntry) (now : Nat)
    (k : List String × Int × String × List String) : Option (Option AggOut) :=
  (cache.find? (fun e => decide (e.key = k) && decide (now < e.expiry))).map
    (fun e => e.value)

/-- One user interaction: serve the pipeline output from the cache when
possible, otherwise compute it and store it with expiry now + 600. -/
def run_pipeline_cached (table : List Row) (cache : List CacheEntry)
    (now : Nat) (selected_comps : List String) (minimum_seasons : Int)
    (player : String) (seasons : List String) :
    Option AggOut × List CacheEntry :=
  match cacheLookup cache now (selected_comps, minimum_seasons, player, seasons) with
  | some v => (v, cache)
  | none =>
    (pipeline table selected_comps minimum_seasons player seasons,
     ⟨(selected_comps, minimum_seasons, player, seasons),
      pipeline table selected_comps minimum_seasons player seasons,
      now + 600⟩ :: cache)

/-! ## Concrete rows used by the scenario claims and witnesses -/

/-- A baseline appearance row. -/
def row0 : Row :=
  { player_name := "John Doe", competition_name := "Champions League",
    season_name := "2015/2016", team_name := "Team A",
    nationality := some "IRL", player_position := "FW", shirt_number := 9,
    minutes_played := 90, goals := 2, assists := 0, yellow_cards := 0,
    red_cards := 0, number_of_seasons := 3 }

/-- The end-to-end scenario rows: one 2015/2016 appearance with 2 goals and
one 2017/2018 appearance with the -1 goal sentinel. -/
def exRows : List Row :=
  [row0, { row0 with season_name := "2017/2018", goals := -1 }]

/-- Appearance rows only for seasons 2015/2016 and 2018/2019. -/
def rowsGap : List Row :=
  [row0, { row0 with season_name := "2018/2019" }]

/-- A table with duplicate player rows, for the load_players witness. -/
def tableDup : List Row :=
  [row0, { row0 with player_name := "Adam" }, row0]

/-- Rows for Team A first in 2010/2011 and Team B first in 2011/2012. -/
def rowsTeams : List Row :=
  [{ row0 with team_name := "A", season_name := "2010/2011" },
   { row0 with team_name := "A", season_name := "2012/2013" },
   { row0 with team_name := "B", season_name := "2011/2012" }]

/-- The same rows in the opposite input order. -/
def rowsTeamsRev : List Row :=
  rowsTeams.reverse

/-! ## Properties of the string order, folds and modes -/

theorem charListLe_refl : ∀ as, charListLe as as = true
  | [] => rfl
  | _ :: as => by simp [charListLe, charListLe_refl as]

theorem charListLe_total : ∀ as bs, charListLe as bs = true ∨ charListLe bs as = true
  | [], _ => Or.inl rfl
  | _ :: _, [] => Or.inr rfl
  | a :: as, b :: bs => by
    by_cases hab : a.toNat = b.toNat
    · simpa [charListLe, hab] using charListLe_total as bs
    · rcases Nat.lt_or_ge a.toNat b.toNat with h | h
      · exact Or.inl (by simp [charListLe, hab, h])
      · have hba : ¬ b.toNat = a.toNat := fun he => hab he.symm
        have : b.toNat < a.toNat := lt_of_le_of_ne h hba
        exact Or.inr (by simp [charListLe, hba, this])

theorem charListLe_trans :
    ∀ as bs cs, charListLe as bs = true → charListLe bs cs = true →
      charListLe as cs = true
  | [], _, _, _, _ => rfl
  | _ :: _, [], _, h, _ => by simp [charListLe] at h
  | _ :: _, _ :: _, [], _, h => by simp [charListLe] at h
  | a :: as, b :: bs, c :: cs, h₁, h₂ => by
    by_cases hab : a.toNat = b.toNat <;> by_cases hbc : b.toNat = c.toNat
    · have hac : a.toNat = c.toNat := hab.trans hbc
      simp only [charListLe, if_pos hab, if_pos hbc] at h₁ h₂
      simpa [charListLe, hac] using charListLe_trans as bs cs h₁ h₂
    · simp only [charListLe, if_pos hab, if_neg hbc] at h₁ h₂
      have hac : ¬ a.toNat = c.toNat := by omega
      have : a.toNat < c.toNat := by
        simp only [decide_eq_true_eq] at h₂; omega
      simp [charListLe, hac, this]
    · simp only [charListLe, if_neg hab, if_pos hbc] at h₁ h₂
      have hac : ¬ a.toNat = c.toNat := by
        simp only [decide_eq_true_eq] at h₁; omega
      have : a.toNat < c.toNat := by
        simp only [decide_eq_true_eq] at h₁; omega
      simp [charListLe, hac, this]
    · simp only [charListLe, if_neg hab, if_neg hbc, decide_eq_true_eq] at h₁ h₂
      have hac : ¬ a.toNat = c.toNat := by omega
      have : a.toNat < c.toNat := by omega
      simp [charListLe, hac, this]

theorem char_eq_of_toNat_eq {a b : Char} (h : a.toNat = b.toNat) : a = b :=
  Char.eq_of_val_eq (UInt32.ext h)

theorem charListLe_antisymm :
    ∀ as bs, charListLe as bs = true → charListLe bs as = true → as = bs
  | [], [], _, _ => rfl
  | [], _ :: _, _, h => by simp [charListLe] at h
  | _ :: _, [], h, _ => by simp [charListLe] at h
  | a :: as, b :: bs, h₁, h₂ => by
    by_cases hab : a.toNat = b.toNat
    · have hba : b.toNat = a.toNat := hab.symm
      simp only [charListLe, if_pos hab, if_pos hba] at h₁ h₂
      rw [char_eq_of_toNat_eq hab, charListLe_antisymm as bs h₁ h₂]
    · have hba : ¬ b.toNat = a.toNat := fun he => hab he.symm
      simp only [charListLe, if_neg hab, if_neg hba, decide_eq_true_eq] at h₁ h₂
      omega

theorem strLe_refl (s : String) : strLe s s = true :=
  charListLe_refl s.data

theorem strLe_total (s t : String) : strLe s t = true ∨ strLe t s = true :=
  charListLe_total s.data t.data

theorem strLe_trans {s t u : String} (h₁ : strLe s t = true)
    (h₂ : strLe t u = true) : strLe s u = true :=
  charListLe_trans s.data t.data u.data h₁ h₂

theorem strLe_antisymm {s t : String} (h₁ : strLe s t = true)
    (h₂ : strLe t s = true) : s = t :=
  String.ext (charListLe_antisymm s.data t.data h₁ h₂)

theorem foldl_min_le_init {α : Type} [LinearOrder α] :
    ∀ (l : List α) (a : α), l.foldl min a ≤ a
  | [], _ => le_refl _
  | b :: l, a => le_trans (foldl_min_le_init l (min a b)) (min_le_left a b)

theorem foldl_min_le_mem {α : Type} [LinearOrder α] :
    ∀ (l : List α) (a x : α), x ∈ l → l.foldl min a ≤ x
  | b :: l, a, x, hx => by
    rcases List.mem_cons.mp hx with h | h
    · subst h
      exact le_trans (foldl_min_le_init l (min a x)) (min_le_right a x)
    · exact foldl_min_le_mem l (min a b) x h

theorem foldl_min_mem {α : Type} [LinearOrder α] :
    ∀ (l : List α) (a : α), l.foldl min a = a ∨ l.foldl min a ∈ l
  | [], _ => Or.inl rfl
  | b :: l, a => by
    rcases foldl_min_mem l (min a b) with h | h
    · rcases min_choice a b with hm | hm
      · exact Or.inl (by rw [List.foldl_cons, h, hm])
      · exact Or.inr (by rw [List.foldl_cons, h, hm]; exact List.mem_cons_self b l)
    · exact Or.inr (List.mem_cons_of_mem b h)

theorem foldl_max_init_le {α : Type} [LinearOrder α] :
    ∀ (l : List α) (a : α), a ≤ l.foldl max a
  | [], _ => le_refl _
  | b :: l, a => le_trans (le_max_left a b) (foldl_max_init_le l (max a b))

theorem foldl_max_mem_le {α : Type} [LinearOrder α] :
    ∀ (l : List α) (a x : α), x ∈ l → x ≤ l.foldl max a
  | b :: l, a, x, hx => by
    rcases List.mem_cons.mp hx with h | h
    · subst h
      exact le_trans (le_max_right a x) (foldl_max_init_le l (max a x))
    · exact foldl_max_mem_le l (max a b) x h

theorem foldl_max_mem {α : Type} [LinearOrder α] :
    ∀ (l : List α) (a : α), l.foldl max a = a ∨ l.foldl max a ∈ l
  | [], _ => Or.inl rfl
  | b :: l, a => by
    rcases foldl_max_mem l (max a b) with h | h
    · rcases max_choice a b with hm | hm
      · exact Or.inl (by rw [List.foldl_cons, h, hm])
      · exact Or.inr (by rw [List.foldl_cons, h, hm]; exact List.mem_cons_self b l)
    · exact Or.inr (List.mem_cons_of_mem b h)

theorem natMinList_mem : ∀ (l : List Nat), l ≠ [] → natMinList l ∈ l
  | [], h => absurd rfl h
  | v :: vs, _ => by
    show vs.foldl min v ∈ v :: vs
    rcases foldl_min_mem vs v with h | h
    · rw [h]; exact List.mem_cons_self v vs
    · exact List.mem_cons_of_mem v h

theorem natMinList_le {l : List Nat} {x : Nat} (hx : x ∈ l) :
    natMinList l ≤ x := by
  match l, hx with
  | v :: vs, hx =>
    rcases List.mem_cons.mp hx with h | h
    · exact h ▸ foldl_min_le_init vs v
    · exact foldl_min_le_mem vs v x h

theorem natMaxList_mem : ∀ (l : List Nat), l ≠ [] → natMaxList l ∈ l
  | [], h => absurd rfl h
  | v :: vs, _ => by
    show vs.foldl max v ∈ v :: vs
    rcases foldl_max_mem vs v with h | h
    · rw [h]; exact List.mem_cons_self v vs
    · exact List.mem_cons_of_mem v h

theorem natMaxList_ge {l : List Nat} {x : Nat} (hx : x ∈ l) :
    x ≤ natMaxList l := by
  match l, hx with
  | v :: vs, hx =>
    rcases List.mem_cons.mp hx with h | h
    · exact h ▸ foldl_max_init_le vs v
    · exact foldl_max_mem_le vs v x h

theorem strMin_le_left (a b : String) : strLe (strMin a b) a = true := by
  by_cases h : strLe a b = true
  · simp [strMin, h, strLe_refl]
  · have hba := (strLe_total a b).resolve_left h
    simp [strMin, h, hba]

theorem strMin_le_right (a b : String) : strLe (strMin a b) b = true := by
  by_cases h : strLe a b = true
  · simp [strMin, h]
  · simp [strMin, h, strLe_refl]

theorem strMin_choice (a b : String) : strMin a b = a ∨ strMin a b = b := by
  by_cases h : strLe a b = true
  · exact Or.inl (by simp [strMin, h])
  · exact Or.inr (by simp [strMin, h])

theorem foldl_strMin_le_init :
    ∀ (l : List String) (a : String), strLe (l.foldl strMin a) a = true
  | [], a => strLe_refl a
  | b :: l, a =>
    strLe_trans (foldl_strMin_le_init l (strMin a b)) (strMin_le_left a b)

theorem foldl_strMin_le_mem :
    ∀ (l : List String) (a x : String), x ∈ l → strLe (l.foldl strMin a) x = true
  | b :: l, a, x, hx => by
    rcases List.mem_cons.mp hx with h | h
    · subst h
      exact strLe_trans (foldl_strMin_le_init l (strMin a x)) (strMin_le_right a x)
    · exact foldl_strMin_le_mem l (strMin a b) x h

theorem foldl_strMin_mem :
    ∀ (l : List String) (a : String), l.foldl strMin a = a ∨ l.foldl strMin a ∈ l
  | [], _ => Or.inl rfl
  | b :: l, a => by
    rcases foldl_strMin_mem l (strMin a b) with h | h
    · rcases strMin_choice a b with hm | hm
      · exact Or.inl (by rw [List.foldl_cons, h, hm])
      · exact Or.inr (by rw [List.foldl_cons, h, hm]; exact List.mem_cons_self b l)
    · exact Or.inr (List.mem_cons_of_mem b h)

theorem strMinList_mem : ∀ (l : List String), l ≠ [] → strMinList l ∈ l
  | [], h => absurd rfl h
  | v :: vs, _ => by
    show vs.foldl strMin v ∈ v :: vs
    rcases foldl_strMin_mem vs v with h | h
    · rw [h]; exact List.mem_cons_self v vs
    · exact List.mem_cons_of_mem v h

theorem strMinList_le {l : List String} {x : String} (hx : x ∈ l) :
    strLe (strMinList l) x = true := by
  match l, hx with
  | v :: vs, hx =>
    rcases List.mem_cons.mp hx with h | h
    · exact h ▸ foldl_strMin_le_init vs v
    · exact foldl_strMin_le_mem vs v x h

theorem strMinList_perm {l₁ l₂ : List String} (h : l₁.Perm l₂) :
    strMinList l₁ = strMinList l₂ := by
  rcases eq_or_ne l₁ [] with h1 | h1
  · subst h1
    rw [h.symm.eq_nil]
  · have h2 : l₂ ≠ [] := fun he => h1 ((he ▸ h).eq_nil)
    exact strLe_antisymm
      (strMinList_le (h.mem_iff.mpr (strMinList_mem l₂ h2)))
      (strMinList_le (h.mem_iff.mp (strMinList_mem l₁ h1)))

theorem count_le_maxCount {α : Type} [DecidableEq α] (l : List α) (q : α) :
    l.count q ≤ maxCount l := by
  by_cases hq : q ∈ l
  · exact natMaxList_ge (List.mem_map.mpr ⟨q, List.mem_dedup.mpr hq, rfl⟩)
  · rw [List.count_eq_zero.mpr hq]
    exact Nat.zero_le _

theorem mem_modesBy_iff {α : Type} [DecidableEq α] {le : α → α → Bool}
    {l : List α} {a : α} :
    a ∈ modesBy le l ↔ a ∈ l ∧ l.count a = maxCount l := by
  unfold modesBy
  rw [(List.perm_insertionSort _ _).mem_iff, List.mem_filter, List.mem_dedup]
  simp

theorem exists_count_eq_maxCount {α : Type} [DecidableEq α] {l : List α}
    (h : l ≠ []) : ∃ a ∈ l, l.count a = maxCount l := by
  have hd : l.dedup ≠ [] := fun he => h ((List.dedup_eq_nil l).mp he)
  have hm : l.dedup.map (fun a => l.count a) ≠ [] := by simpa using hd
  rcases List.mem_map.mp (natMaxList_mem _ hm) with ⟨a, ha, hc⟩
  exact ⟨a, List.mem_dedup.mp ha, hc⟩

theorem modesBy_ne_nil {α : Type} [DecidableEq α] (le : α → α → Bool)
    {l : List α} (h : l ≠ []) : modesBy le l ≠ [] := by
  rcases exists_count_eq_maxCount (l := l) h with ⟨a, ha, hc⟩
  intro he
  have : a ∈ modesBy le l := mem_modesBy_iff.mpr ⟨ha, hc⟩
  simp [he] at this

theorem modesBy_eq_nil_iff {α : Type} [DecidableEq α] (le : α → α → Bool)
    (l : List α) : modesBy le l = [] ↔ l = [] := by
  constructor
  · intro he
    by_contra h
    exact modesBy_ne_nil le h he
  · intro he
    subst he
    rfl

theorem filterMap_sentinel_eq (g : Row → Int) :
    ∀ rows : List Row, rows.filterMap (fun r => sentinel (g r)) =
      (rows.filter (fun r => decide (g r ≠ -1))).map g
  | [] => rfl
  | r :: rows => by
    by_cases h : g r = -1
    · have hs : sentinel (g r) = none := by simp [sentinel, h]
      have hp : decide (g r ≠ -1) = false := by simp [h]
      simp only [List.filterMap_cons, List.filter_cons, hs, hp]
      exact filterMap_sentinel_eq g rows
    · have hs : sentinel (g r) = some (g r) := by simp [sentinel, h]
      have hp : decide (g r ≠ -1) = true := by simp [h]
      simp only [List.filterMap_cons, List.filter_cons, hs, hp, if_true,
        List.map_cons]
      rw [filterMap_sentinel_eq g rows]

theorem filterMap_sentinel_filter_self (g : Row → Int) (rows : List Row) :
    (rows.filter (fun r => decide (g r ≠ -1))).filterMap (fun r => sentinel (g r)) =
      rows.filterMap (fun r => sentinel (g r)) := by
  induction rows with
  | nil => rfl
  | cons r rows ih =>
    by_cases h : g r = -1
    · have hs : sentinel (g r) = none := by simp [sentinel, h]
      have hp : decide (g r ≠ -1) = false := by simp [h]
      simp only [List.filterMap_cons, List.filter_cons, hs, hp]
      exact ih
    · have hs : sentinel (g r) = some (g r) := by simp [sentinel, h]
      have hp : decide (g r ≠ -1) = true := by simp [h]
      simp only [List.filterMap_cons, List.filter_cons, hs, hp, if_true]
      rw [ih]

theorem mem_seasonNames_iff {final_df : List Row} {n : String} :
    n ∈ seasonNames final_df ↔ ∃ r ∈ final_df, r.season_name = n := by
  unfold seasonNames sortedStrings
  rw [(List.perm_insertionSort _ _).mem_iff, List.mem_dedup, List.mem_map]

theorem mem_groupStarts_iff {final_df : List Row} {y : Nat} :
    y ∈ groupStarts final_df ↔
      ∃ r ∈ final_df, seasonStart r.season_name = y := by
  constructor
  · intro hy
    rcases List.mem_map.mp hy with ⟨n, hn, hsn⟩
    rcases mem_seasonNames_iff.mp hn with ⟨r, hr, hrn⟩
    exact ⟨r, hr, by rw [hrn, hsn]⟩
  · rintro ⟨r, hr, hy⟩
    exact List.mem_map.mpr
      ⟨r.season_name, mem_seasonNames_iff.mpr ⟨r, hr, rfl⟩, hy⟩

theorem groupStarts_ne_nil {final_df : List Row} (h : final_df ≠ []) :
    groupStarts final_df ≠ [] := by
  rcases List.exists_cons_of_ne_nil h with ⟨r, rest, hrw⟩
  intro he
  have hm : seasonStart r.season_name ∈ groupStarts final_df :=
    mem_groupStarts_iff.mpr ⟨r, by rw [hrw]; exact List.mem_cons_self r rest, rfl⟩
  simp [he] at hm

theorem densRow_Season (final_df : List Row) (y : Nat) :
    (densRow final_df y).Season = seasonLabel y := by
  unfold densRow
  cases (seasonNames final_df).find? (fun n => decide (seasonStart n = y)) <;> rfl

theorem season_stats_of_ne_nil {final_df : List Row}
    (h : groupStarts final_df ≠ []) :
    season_stats final_df =
      (List.range' (loYear final_df) (hiYear final_df + 1 - loYear final_df)).map
        (densRow final_df) := by
  simp [season_stats, h]

theorem teamNames_perm {r₁ r₂ : List Row} (h : r₁.Perm r₂) :
    teamNames r₁ = teamNames r₂ := by
  haveI : IsTotal String (fun a b => strLe a b = true) := ⟨strLe_total⟩
  haveI : IsTrans String (fun a b => strLe a b = true) :=
    ⟨fun _ _ _ => strLe_trans⟩
  haveI : IsAntisymm String (fun a b => strLe a b = true) :=
    ⟨fun _ _ => strLe_antisymm⟩
  unfold teamNames sortedStrings
  exact List.eq_of_perm_of_sorted
    ((List.perm_insertionSort _ _).trans
      ((h.map _).dedup.trans (List.perm_insertionSort _ _).symm))
    (List.sorted_insertionSort _ _) (List.sorted_insertionSort _ _)

theorem minSeasonFor_perm {r₁ r₂ : List Row} (h : r₁.Perm r₂) (t : String) :
    minSeasonFor r₁ t = minSeasonFor r₂ t :=
  strMinList_perm ((h.filter _).map _)

theorem teamStarts_perm {r₁ r₂ : List Row} (h : r₁.Perm r₂) :
    teamStarts r₁ = teamStarts r₂ := by
  unfold teamStarts
  rw [teamNames_perm h]
  exact List.map_congr_left (fun t _ => by rw [minSeasonFor_perm h t])

theorem team_order_perm {r₁ r₂ : List Row} (h : r₁.Perm r₂) :
    team_order r₁ = team_order r₂ := by
  unfold team_order
  rw [teamStarts_perm h]

theorem teamStarts_map_fst (final_df : List Row) :
    (teamStarts final_df).map (fun p => p.1) = teamNames final_df := by
  unfold teamStarts
  rw [List.map_map]
  exact List.map_id (teamNames final_df)

theorem team_order_map_fst_perm (final_df : List Row) :
    ((team_order final_df).map (fun p => p.1)).Perm (teamNames final_df) := by
  rw [← teamStarts_map_fst final_df]
  exact (List.perm_insertionSort _ _).map _

theorem modesBy_head_spec {α : Type} [DecidableEq α] (le : α → α → Bool)
    {l : List α} (h : l ≠ []) :
    ∃ x, (modesBy le l).head? = some x ∧ x ∈ l ∧
      ∀ q, l.count q ≤ l.count x := by
  rcases List.exists_cons_of_ne_nil (modesBy_ne_nil le h) with ⟨x, xs, hx⟩
  have hxm : x ∈ modesBy le l := by
    rw [hx]
    exact List.mem_cons_self x xs
  have hspec := mem_modesBy_iff.mp hxm
  refine ⟨x, by rw [hx]; rfl, hspec.1, fun q => ?_⟩
  rw [hspec.2]
  exact count_le_maxCount l q

/-! ## The claims -/

/-- C1: season densification.  For a non-empty filtered row set, the
season_stats table lists one row per start year from the earliest to the
latest season present, in order, each labeled by the rebuilt "Y/(Y+1)"
label; loYear and hiYear are exactly the minimum and maximum start year
present among the rows; and every year of that range for which no row is
recorded gets the zero-filled row. -/
theorem season_densification_C1 (final_df : List Row) (hne : final_df ≠ []) :
    (season_stats final_df).map (fun sr => sr.Season) =
      (List.range' (loYear final_df)
        (hiYear final_df + 1 - loYear final_df)).map seasonLabel ∧
    (∃ r ∈ final_df, seasonStart r.season_name = loYear final_df) ∧
    (∃ r ∈ final_df, seasonStart r.season_name = hiYear final_df) ∧
    (∀ r ∈ final_df, loYear final_df ≤ seasonStart r.season_name ∧
      seasonStart r.season_name ≤ hiYear final_df) ∧
    (∀ y, loYear final_df ≤ y → y ≤ hiYear final_df →
      (∀ r ∈ final_df, seasonStart r.season_name ≠ y) →
      SeasonRow.mk (seasonLabel y) 0 0 ∈ season_stats final_df) := by
  have hgs : groupStarts final_df ≠ [] := groupStarts_ne_nil hne
  have hss := season_stats_of_ne_nil hgs
  refine ⟨?_, ?_, ?_, ?_, ?_⟩
  · rw [hss, List.map_map]
    exact List.map_congr_left (fun y _ => densRow_Season final_df y)
  · exact mem_groupStarts_iff.mp (natMinList_mem _ hgs)
  · exact mem_groupStarts_iff.mp (natMaxList_mem _ hgs)
  · intro r hr
    have hy : seasonStart r.season_name ∈ groupStarts final_df :=
      mem_groupStarts_iff.mpr ⟨r, hr, rfl⟩
    exact ⟨natMinList_le hy, natMaxList_ge hy⟩
  · intro y hlo hhi hnone
    have hfind : (seasonNames final_df).find?
        (fun n => decide (seasonStart n = y)) = none := by
      rw [List.find?_eq_none]
      intro n hn hdec
      rcases mem_seasonNames_iff.mp hn with ⟨r, hr, hrn⟩
      simp only [decide_eq_true_eq] at hdec
      exact hnone r hr (by rw [hrn]; exact hdec)
    have hdr : densRow final_df y = ⟨seasonLabel y, 0, 0⟩ := by
      unfold densRow
      rw [hfind]
    have hy : y ∈ List.range' (loYear final_df)
        (hiYear final_df + 1 - loYear final_df) := by
      have hlh : loYear final_df ≤ hiYear final_df :=
        natMinList_le (natMaxList_mem _ hgs)
      exact List.mem_range'_1.mpr ⟨hlo, by omega⟩
    rw [hss]
    exact List.mem_map.mpr ⟨y, hy, hdr⟩

/-- Witness for C1 on rows recorded only for 2015/2016 and 2018/2019: the
theorem applies, and the densified table is exactly the four seasons with
zeros for the two missing ones. -/
theorem season_densification_C1_witness :
    rowsGap ≠ [] ∧
    (∃ r ∈ rowsGap, seasonStart r.season_name = loYear rowsGap) ∧
    season_stats rowsGap =
      [⟨"2015/2016", 1, 2⟩, ⟨"2016/2017", 0, 0⟩, ⟨"2017/2018", 0, 0⟩,
       ⟨"2018/2019", 1, 2⟩] :=
  ⟨by decide, (season_densification_C1 rowsGap (by decide)).2.1, by decide⟩

/-- C2: the -1 sentinel is treated as null before aggregation: total_goals
sums exactly the goals different from -1 (so a -1 row contributes 0 to the
sum, neither -1 nor an extra zero term), and the numeric mode statistics
are unchanged when the rows carrying the -1 sentinel in that column are
dropped, i.e. the sentinel nulls are excluded from the mode computation. -/
theorem sentinel_handling_C2 (final_df : List Row) :
    total_goals final_df =
      ((final_df.filter (fun r => decide (r.goals ≠ -1))).map
        (fun r => r.goals)).sum ∧
    (∀ r : Row, r.goals = -1 →
      total_goals (r :: final_df) = total_goals final_df) ∧
    number_of_seasons_stat final_df =
      number_of_seasons_stat
        (final_df.filter (fun r => decide (r.number_of_seasons ≠ -1))) ∧
    shirt_number_stat final_df =
      shirt_number_stat
        (final_df.filter (fun r => decide (r.shirt_number ≠ -1))) := by
  refine ⟨?_, ?_, ?_, ?_⟩
  · unfold total_goals
    rw [filterMap_sentinel_eq (fun r => r.goals)]
  · intro r h
    unfold total_goals
    have hs : sentinel r.goals = none := by simp [sentinel, h]
    simp only [List.filterMap_cons, hs]
  · unfold number_of_seasons_stat numberOfSeasonsPool
    rw [filterMap_sentinel_filter_self (fun r => r.number_of_seasons)]
  · unfold shirt_number_stat shirtPool
    rw [filterMap_sentinel_filter_self (fun r => r.shirt_number)]

/-- C3: end-to-end scenario.  For the rows of exRows (a 2015/2016
appearance with 2 goals and a 2017/2018 appearance with the -1 goal
sentinel), the pipeline run with competitions = Champions League,
minimum_seasons = 3, player = John Doe and no season filter yields
total_appearances = 2, total_goals = 2, and the three-row season table
2015/2016, 2016/2017 (zero-filled), 2017/2018 with goals column [2, 0, 0].
-/
theorem end_to_end_C3 :
    (pipeline exRows ["Champions League"] 3 "John Doe" []).map
        (fun out => (out.total_appearances, out.total_goals,
          out.season_table)) =
      some (2, 2,
        [⟨"2015/2016", 1, 2⟩, ⟨"2016/2017", 0, 0⟩, ⟨"2017/2018", 1, 0⟩]) ∧
    (season_stats exRows).map (fun sr => sr.Goals) = [2, 0, 0] := by
  decide

/-- C4: empty-selection short-circuit.  With no competition selected,
load_number_of_seasons, load_players and load_player_data each return the
early-return empty result (constructor QueryResult.empty, produced before
any database query is issued); load_player_data also short-circuits when
the player selection is empty. -/
theorem empty_selection_shortcircuit_C4 (table : List Row)
    (minimum_seasons : Int) (player : String) (selected_comps : List String) :
    load_number_of_seasons table [] = QueryResult.empty ∧
    load_players table minimum_seasons [] = QueryResult.empty ∧
    load_player_data table minimum_seasons player [] = QueryResult.empty ∧
    load_player_data table minimum_seasons "" selected_comps =
      QueryResult.empty := by
  refine ⟨by simp [load_number_of_seasons], by simp [load_players], ?_, ?_⟩
  · simp [load_player_data]
  · simp [load_player_data]

/-- C5: for a non-empty competition selection, the list load_players
returns is sorted ascending in the Python string order and has no
duplicate player names. -/
theorem load_players_sorted_nodup_C5 (table : List Row)
    (minimum_seasons : Int) (selected_comps : List String) (l : List String)
    (hc : selected_comps ≠ [])
    (hl : load_players table minimum_seasons selected_comps =
      QueryResult.ok l) :
    List.Sorted (fun a b => strLe a b = true) l ∧ l.Nodup := by
  haveI : IsTotal String (fun a b => strLe a b = true) := ⟨strLe_total⟩
  haveI : IsTrans String (fun a b => strLe a b = true) :=
    ⟨fun _ _ _ => strLe_trans⟩
  simp only [load_players, if_neg hc, QueryResult.ok.injEq] at hl
  subst hl
  unfold sortedStrings
  exact ⟨List.sorted_insertionSort _ _,
    ((List.perm_insertionSort _ _).nodup_iff).mpr (List.nodup_dedup _)⟩

/-- Witness for C5 on a table holding duplicate rows for John Doe and one
row for Adam. -/
theorem load_players_sorted_nodup_C5_witness :
    (["Champions League"] ≠ ([] : List String)) ∧
    load_players tableDup 3 ["Champions League"] =
      QueryResult.ok ["Adam", "John Doe"] ∧
    (List.Sorted (fun a b => strLe a b = true) ["Adam", "John Doe"] ∧
      (["Adam", "John Doe"] : List String).Nodup) :=
  ⟨by decide, by decide,
    load_players_sorted_nodup_C5 tableDup 3 ["Champions League"]
      ["Adam", "John Doe"] (by decide) (by decide)⟩

/-- C6: team order.  The team_order table lists each distinct team exactly
once, its season_start entry is the 4-digit start-year prefix of the
earliest season the player appeared for that team, the table is ordered by
that start year, and the whole result (and hence the en-dash-joined teams
string) is invariant under permuting the input rows. -/
theorem team_order_C6 (final_df final_df₂ : List Row)
    (hp : final_df.Perm final_df₂) :
    ((team_order final_df).map (fun p => p.1)).Nodup ∧
    (∀ t, t ∈ (team_order final_df).map (fun p => p.1) ↔
      t ∈ final_df.map (fun r => r.team_name)) ∧
    List.Sorted (fun a b => a.2 ≤ b.2) (team_order final_df) ∧
    (∀ p ∈ team_order final_df,
      p.2 = seasonStart (minSeasonFor final_df p.1)) ∧
    team_order final_df = team_order final_df₂ ∧
    teams final_df = teams final_df₂ := by
  haveI : IsTotal (String × Nat) (fun a b => a.2 ≤ b.2) :=
    ⟨fun a b => Nat.le_total a.2 b.2⟩
  haveI : IsTrans (String × Nat) (fun a b => a.2 ≤ b.2) :=
    ⟨fun _ _ _ h₁ h₂ => le_trans h₁ h₂⟩
  have hfst := team_order_map_fst_perm final_df
  refine ⟨?_, ?_, ?_, ?_, team_order_perm hp, ?_⟩
  · refine hfst.nodup_iff.mpr ?_
    unfold teamNames sortedStrings
    exact ((List.perm_insertionSort _ _).nodup_iff).mpr (List.nodup_dedup _)
  · intro t
    rw [hfst.mem_iff]
    unfold teamNames sortedStrings
    rw [(List.perm_insertionSort _ _).mem_iff, List.mem_dedup]
  · unfold team_order
    exact List.sorted_insertionSort _ _
  · intro p hpmem
    have hts : p ∈ teamStarts final_df :=
      (List.perm_insertionSort _ _).mem_iff.mp hpmem
    rcases List.mem_map.mp hts with ⟨t, ht, hteq⟩
    rw [← hteq]
  · unfold teams
    rw [team_order_perm hp]

/-- Witness for C6: Team A first in 2010/2011 and Team B first in
2011/2012; reversing the input rows leaves the teams string unchanged, and
it reads "A – B". -/
theorem team_order_C6_witness :
    rowsTeams.Perm rowsTeamsRev ∧
    teams rowsTeams = teams rowsTeamsRev ∧
    teams rowsTeams = "A – B" :=
  ⟨(List.reverse_perm rowsTeams).symm,
   (team_order_C6 rowsTeams rowsTeamsRev
     ((List.reverse_perm rowsTeams).symm)).2.2.2.2.2,
   by decide⟩

/-- C7: unknown fallbacks.  main_position is a most frequent position value
distinct from "N/A" and is "Unknown" exactly when no such value exists;
shirt_number_stat is a most frequent non-null shirt number and is
"Unknown" exactly when no non-null shirt number is present. -/
theorem unknown_fallbacks_C7 (final_df : List Row) :
    (positionsPool final_df = [] → main_position final_df = "Unknown") ∧
    (positionsPool final_df ≠ [] →
      main_position final_df ∈ positionsPool final_df ∧
      ∀ q, (positionsPool final_df).count q ≤
        (positionsPool final_df).count (main_position final_df)) ∧
    (shirtPool final_df = [] →
      shirt_number_stat final_df = ShirtStat.unknown) ∧
    (shirtPool final_df ≠ [] →
      ∃ n, shirt_number_stat final_df = ShirtStat.num n ∧
        n ∈ shirtPool final_df ∧
        ∀ q, (shirtPool final_df).count q ≤ (shirtPool final_df).count n) := by
  refine ⟨?_, ?_, ?_, ?_⟩
  · intro h
    unfold main_position
    rw [(modesBy_eq_nil_iff strLe _).mpr h]
    rfl
  · intro h
    rcases modesBy_head_spec strLe h with ⟨x, hx, hmem, hcnt⟩
    unfold main_position
    rw [hx]
    exact ⟨hmem, hcnt⟩
  · intro h
    unfold shirt_number_stat
    rw [(modesBy_eq_nil_iff intLe _).mpr h]
    rfl
  · intro h
    rcases modesBy_head_spec intLe h with ⟨n, hn, hmem, hcnt⟩
    refine ⟨n, ?_, hmem, hcnt⟩
    unfold shirt_number_stat
    rw [hn]

/-- C8: idempotence and determinism.  With the table fixed, both the first
(cold-cache) and the second run of the cached pipeline with identical
filter selections return the pure pipeline value, whatever the two request
times, so re-running the pipeline yields identical aggregated output. -/
theorem pipeline_deterministic_C8 (table : List Row)
    (selected_comps : List String) (minimum_seasons : Int) (player : String)
    (seasons : List String) (t₀ t₁ : Nat) :
    (run_pipeline_cached table [] t₀ selected_comps minimum_seasons player
        seasons).1 =
      pipeline table selected_comps minimum_seasons player seasons ∧
    (run_pipeline_cached table
        (run_pipeline_cached table [] t₀ selected_comps minimum_seasons
          player seasons).2 t₁ selected_comps minimum_seasons player
        seasons).1 =
      pipeline table selected_comps minimum_seasons player seasons := by
  have h₀ : cacheLookup [] t₀
      (selected_comps, minimum_seasons, player, seasons) = none := rfl
  have hrun : run_pipeline_cached table [] t₀ selected_comps minimum_seasons
      player seasons =
      (pipeline table selected_comps minimum_seasons player seasons,
       [⟨(selected_comps, minimum_seasons, player, seasons),
         pipeline table selected_comps minimum_seasons player seasons,
         t₀ + 600⟩]) := by
    unfold run_pipeline_cached
    rw [h₀]
  refine ⟨by rw [hrun], ?_⟩
  rw [hrun]
  by_cases ht : t₁ < t₀ + 600
  · unfold run_pipeline_cached cacheLookup
    simp [List.find?_cons, ht]
  · unfold run_pipeline_cached cacheLookup
    simp [List.find?_cons, ht]

/-- C9: for a non-empty competition selection matching no row of the table,
load_number_of_seasons does not return the empty result: the MAX aggregate
is NULL and the unconditional int() conversion raises, modelled by the err
outcome. -/
theorem load_number_of_seasons_raises_C9 (table : List Row)
    (selected_comps : List String) (hc : selected_comps ≠ [])
    (hno : table.filter
      (fun r => decide (r.competition_name ∈ selected_comps)) = []) :
    load_number_of_seasons table selected_comps =
      QueryResult.err "int() applied to a NULL MAX aggregate" := by
  simp [load_number_of_seasons, hc, hno, intMaxList]

/-- Witness for C9 on the empty table with Champions League selected. -/
theorem load_number_of_seasons_raises_C9_witness :
    (["Champions League"] ≠ ([] : List String)) ∧
    load_number_of_seasons [] ["Champions League"] =
      QueryResult.err "int() applied to a NULL MAX aggregate" :=
  ⟨by decide,
   load_number_of_seasons_raises_C9 [] ["Champions League"] (by decide) rfl⟩

/-- C10: the nationality and number_of_seasons statistics read mode().iat[0]
with no fallback; the read fails (none) exactly when the column holds no
non-null value, unlike the position and shirt-number statistics. -/
theorem mode_first_element_precondition_C10 (final_df : List Row) :
    (nationality_stat final_df = none ↔ nationalityPool final_df = []) ∧
    (number_of_seasons_stat final_df = none ↔
      numberOfSeasonsPool final_df = []) := by
  constructor
  · unfold nationality_stat
    rw [List.head?_eq_none_iff, modesBy_eq_nil_iff]
  · unfold number_of_seasons_stat
    rw [List.head?_eq_none_iff, modesBy_eq_nil_iff]

/-- Witness for C2: prepending a goals = -1 row leaves the goal sum
unchanged. -/
theorem sentinel_handling_C2_witness :
    ({ row0 with goals := -1 } : Row).goals = -1 ∧
    total_goals ({ row0 with goals := -1 } :: [row0]) = total_goals [row0] :=
  ⟨by decide,
   (sentinel_handling_C2 [row0]).2.1 { row0 with goals := -1 } (by decide)⟩

/-- Witness for C7 on a row whose position is "N/A" and whose shirt number
is the -1 sentinel: both statistics fall back to "Unknown". -/
theorem unknown_fallbacks_C7_witness :
    positionsPool [{ row0 with player_position := "N/A", shirt_number := -1 }] = [] ∧
    main_position [{ row0 with player_position := "N/A", shirt_number := -1 }] =
      "Unknown" ∧
    shirt_number_stat [{ row0 with player_position := "N/A", shirt_number := -1 }] =
      ShirtStat.unknown :=
  ⟨by decide,
   (unknown_fallbacks_C7
     [{ row0 with player_position := "N/A", shirt_number := -1 }]).1 (by decide),
   (unknown_fallbacks_C7
     [{ row0 with player_position := "N/A", shirt_number := -1 }]).2.2.1 (by decide)⟩
